import Mathlib

/-!
Shallow embedding of the LLM Gateway of the `aitutor` repository
(`src/unnamed/part_005`): `analyzePDFContent`, `analyzeTopic`,
`generateTutorResponse`.

Modelling conventions:
* JavaScript runtime values that flow out of `JSON.parse` are modelled by
  the inductive type `JsVal` (JS `undefined` is modelled by `Option.none`
  at property-access sites).  JS numbers are modelled by `Int`: no gateway
  code performs arithmetic on parsed numbers, only `typeof`-style checks.
* The host primitives `JSON.parse` and the regex-based sanitisation are not
  repository code; a provider response is therefore modelled by the string
  content together with the outcome of parsing it
  (`Except String JsVal`: `.error m` is a parse exception with message `m`,
  `.ok j` is the parsed value).
* JS `String.prototype.trim` is modelled by `String.trim`,
  `String.prototype.slice(0, 100)` by taking the first 100 characters.
* Thrown JS `Error` values are modelled by `JsError` (an optional HTTP
  `status`, as read by the retry loop, plus the message).
-/

/-- A JavaScript value as produced by `JSON.parse`. -/
inductive JsVal where
  | null
  | bool (b : Bool)
  | num (n : Int)
  | str (s : String)
  | arr (elems : List JsVal)
  | obj (fields : List (String × JsVal))

/-- Property access `v.k`: `none` models JS `undefined` (also for access on
non-objects; on `null` the real runtime throws a `TypeError`, which the
gateway's surrounding `catch` converts to the same parse-failure error this
model produces, so the observable behaviour agrees). -/
def jsGet : JsVal → String → Option JsVal
  | .obj fields, k => fields.lookup k
  | _, _ => none

/-- JS truthiness of a defined value. -/
def truthy : JsVal → Bool
  | .null => false
  | .bool b => b
  | .num n => n != 0
  | .str s => s != ""
  | .arr _ => true
  | .obj _ => true

/-- A thrown JS error: the optional numeric `status` field inspected by the
retry loop, and the message. -/
structure JsError where
  status : Option Nat
  msg : String
deriving DecidableEq, Repr

/-- JS `String.prototype.trim` on a character list: drop leading and trailing
whitespace. -/
def trimChars (cs : List Char) : List Char :=
  ((cs.dropWhile Char.isWhitespace).reverse.dropWhile Char.isWhitespace).reverse

/-- JS `String.prototype.trim` (ASCII whitespace; the Unicode cases JS also
strips do not occur in any input considered here). -/
def jsTrim (s : String) : String := String.mk (trimChars s.toList)

/-! ## `analyzePDFContent` (part_005 lines 26-166) -/

/-- A lesson in the shape `analyzePDFContent` returns (part_005 lines 20-24):
the filter below guarantees `day` is a number, `title` a string and
`standard` null or a string, so the mapped output is typed. -/
structure Lesson where
  day : Int
  title : String
  standard : Option String
deriving DecidableEq, Repr

/-- The structural validity test applied to each element of the parsed
`lessons` array (part_005 lines 102-108):
`lesson && typeof lesson.day === "number" && typeof lesson.title === "string"
&& lesson.title.trim() && (lesson.standard === null || typeof lesson.standard === "string")`.
Note a missing `standard` field is `undefined`, which is neither `null` nor a
string, so it fails the test. -/
def isValidLesson (l : JsVal) : Bool :=
  truthy l
    && (match jsGet l "day" with | some (.num _) => true | _ => false)
    && (match jsGet l "title" with | some (.str t) => jsTrim t != "" | _ => false)
    && (match jsGet l "standard" with
        | some .null => true
        | some (.str _) => true
        | _ => false)

/-- The cleaning map applied to each valid lesson (part_005 lines 109-113):
`{day: lesson.day, title: lesson.title.trim().slice(0, 100), standard: lesson.standard}`.
`slice(0, 100)` is modelled by taking the first 100 characters.  The default
branches are unreachable for elements that passed `isValidLesson`. -/
def cleanLesson (l : JsVal) : Lesson :=
  { day := match jsGet l "day" with | some (JsVal.num n) => n | _ => 0
    title := match jsGet l "title" with
      | some (JsVal.str t) => String.mk ((trimChars t.toList).take 100)
      | _ => ""
    standard := match jsGet l "standard" with
      | some (JsVal.str s) => some s
      | _ => none }

/-- Error thrown at part_005 line 97 ("Invalid response structure"), as
rewrapped by the inner catch at line 124 into
`Failed to parse OpenAI response: ...`. -/
def invalidStructureErr : JsError :=
  ⟨none, "Failed to parse OpenAI response: Invalid response structure"⟩

/-- Error thrown at part_005 line 116 ("No valid lessons found"), as rewrapped
by the inner catch at line 124. -/
def noValidLessonsErr : JsError :=
  ⟨none, "Failed to parse OpenAI response: No valid lessons found"⟩

/-- Error thrown at part_005 line 81 when the provider returned no content. -/
def noContentErr : JsError := ⟨none, "No response received from OpenAI"⟩

/-- Error thrown at part_005 lines 27-28 (and 182-183, 275-276) when the
provider API key is missing from the environment. -/
def apiKeyMissingErr : JsError := ⟨none, "OpenAI API key is not configured"⟩

/-- Everything `analyzePDFContent` does with a successfully parsed response
value (part_005 lines 94-120): the `lessons` field must be a truthy array
(a JS array is always truthy, so the two checks of line 96 collapse to
`Array.isArray`), each element is filtered by `isValidLesson` and mapped by
`cleanLesson`, and an empty filtered list is an error.  The two thrown
errors land in the inner catch of line 121 and are rewrapped. -/
def processParsedLessons (parsed : JsVal) : Except JsError (List Lesson) :=
  match jsGet parsed "lessons" with
  | some (JsVal.arr elems) =>
    let validLessons := (elems.filter isValidLesson).map cleanLesson
    if validLessons.isEmpty then .error noValidLessonsErr
    else .ok validLessons
  | _ => .error invalidStructureErr

/-- One provider call's outcome, as seen by the gateway: either the API call
threw (with an optional HTTP `status`), or it returned `content` (the empty
string models absent content, which JS sees as falsy) whose sanitised text
parses to `.ok j` or raises a parse exception `.error m`. -/
inductive ProviderOutcome where
  | apiFail (status : Option Nat) (msg : String)
  | reply (content : String) (parsed : Except String JsVal)

/-- The body of the `try` block of one retry-loop iteration of
`analyzePDFContent` (part_005 lines 41-126): provider call, content-presence
check (line 80), JSON parse (line 94, rewrapped by line 124 on failure), and
`processParsedLessons`. -/
def attemptOf : ProviderOutcome → Except JsError (List Lesson)
  | .apiFail st m => .error ⟨st, m⟩
  | .reply content parsed =>
    if content = "" then .error noContentErr
    else match parsed with
      | .error m => .error ⟨none, "Failed to parse OpenAI response: " ++ m⟩
      | .ok j => processParsedLessons j

/-- The retry test of part_005 lines 131 and 139:
`error?.status === 429` or `error?.status >= 500` (both branches behave
identically); an absent status is retryable under neither. -/
def isRetryableStatus : Option Nat → Bool
  | some s => s == 429 || decide (500 ≤ s)
  | none => false

/-- The terminal error built after the loop exits with retries exhausted
(part_005 lines 154-160). -/
def exhaustedErr (lastError : Option JsError) : JsError :=
  ⟨none, "Failed to process pacing guide: "
      ++ (match lastError with
          | some e => e.msg
          | none => "Failed to process after retries")⟩

/-- Observable trace of one `analyzePDFContent` invocation: how many provider
calls were made, the backoff sleeps performed (in ms, in order), and the
returned value or raised error. -/
structure PacingTrace where
  calls : Nat
  delays : List Nat
  result : Except JsError (List Lesson)
deriving Repr

/-- `baseDelay` of part_005 line 38. -/
def baseDelay : Nat := 3000

/-- The `while (retries > 0)` loop of part_005 lines 40-152.  `idx` is the
number of provider calls already made; the fuel argument is the current
`retries` value.  On a retryable error `retries` is decremented (line 132 /
140); if retries remain the loop sleeps `baseDelay * (3 - retries)` ms
(lines 134, 142) and continues, otherwise control falls out of the loop and
the terminal error of lines 154-160 is thrown.  A non-retryable error is
rethrown immediately (line 149). -/
def analyzeRetryLoop (provider : Nat → ProviderOutcome) :
    Nat → Nat → Option JsError → List Nat → PacingTrace
  | idx, 0, lastError, delays => ⟨idx, delays, .error (exhaustedErr lastError)⟩
  | idx, r + 1, _lastError, delays =>
    match attemptOf (provider idx) with
    | .ok lessons => ⟨idx + 1, delays, .ok lessons⟩
    | .error e =>
      if isRetryableStatus e.status then
        if 0 < r then
          analyzeRetryLoop provider (idx + 1) r (some e)
            (delays ++ [baseDelay * (3 - r)])
        else
          ⟨idx + 1, delays, .error (exhaustedErr (some e))⟩
      else
        ⟨idx + 1, delays, .error e⟩

/-- `analyzePDFContent` (part_005 lines 26-166): fail-fast API-key check
(lines 27-29), then the retry loop with `retries = 3` (line 36).  The
`provider` argument scripts the outcome of the k-th provider call; the
outermost catch (lines 162-165) rethrows the error unchanged. -/
def analyzePDFContent (apiKeyPresent : Bool)
    (provider : Nat → ProviderOutcome) : PacingTrace :=
  if !apiKeyPresent then ⟨0, [], .error apiKeyMissingErr⟩
  else analyzeRetryLoop provider 0 3 none []

/-! ## `analyzeTopic` (part_005 lines 168-268) -/

/-- One standard in the shape `analyzeTopic` returns (part_005 lines 173-180).
The declared TS type promises `id : string`, but the runtime value
`standard.id || null` is passed through unvalidated, so `id` is kept as a raw
`JsVal` (`JsVal.null` models the `null` branch). -/
structure StandardOut where
  id : JsVal
  description : String
  grade : String
  subject : String
  confidence : Nat

/-- The validity test applied to each element of the parsed `standards` array
(part_005 line 244): `standard && typeof standard.description === 'string'
&& standard.description.trim()`. -/
def isValidStandard (c : JsVal) : Bool :=
  truthy c
    && (match jsGet c "description" with
        | some (.str d) => jsTrim d != ""
        | _ => false)

/-- The cleaning map applied to each valid candidate (part_005 lines 245-251):
`{id: standard.id || null, description: standard.description.trim(), grade,
subject, confidence: 1}`. -/
def cleanStandard (grade subject : String) (c : JsVal) : StandardOut :=
  { id := match jsGet c "id" with
      | some v => if truthy v then v else JsVal.null
      | none => JsVal.null
    description := match jsGet c "description" with
      | some (JsVal.str d) => jsTrim d
      | _ => ""
    grade := grade
    subject := subject
    confidence := 1 }

/-- The error every parse/validation failure of `analyzeTopic` surfaces as:
the inner catch (part_005 line 262) replaces the message of the errors thrown
at lines 239 ("Invalid response structure from OpenAI") and 254 ("No valid
lessons found in the response") with this fixed text, and the outer catch
(line 266) preserves it. -/
def topicParseErr : JsError := ⟨none, "Failed to parse OpenAI response"⟩

/-- Everything `analyzeTopic` does with a successfully parsed response value
(part_005 lines 237-258): `standards` must be a truthy array (a JS array is
always truthy), elements are filtered by `isValidStandard` and mapped by
`cleanStandard`, and an empty filtered list is an error; both error paths are
rewrapped to `topicParseErr` by the catch of line 259. -/
def processParsedStandards (grade subject : String) (parsed : JsVal) :
    Except JsError (List StandardOut) :=
  match jsGet parsed "standards" with
  | some (JsVal.arr elems) =>
    let validStandards := (elems.filter isValidStandard).map (cleanStandard grade subject)
    if validStandards.isEmpty then .error topicParseErr
    else .ok validStandards
  | _ => .error topicParseErr

/-- Observable trace of one `analyzeTopic` invocation. -/
structure TopicTrace where
  calls : Nat
  result : Except JsError (List StandardOut)

/-- `analyzeTopic` (part_005 lines 168-268): fail-fast API-key check (lines
182-184), a single provider call (no retry), content-presence check (line
220), parse (line 235) and validation.  The outer catch (lines 264-267)
throws `new Error(error.message)`, preserving the message but dropping any
`status` field. -/
def analyzeTopic (apiKeyPresent : Bool) (grade subject : String)
    (outcome : ProviderOutcome) : TopicTrace :=
  if !apiKeyPresent then ⟨0, .error apiKeyMissingErr⟩
  else
    match outcome with
    | .apiFail _ m => ⟨1, .error ⟨none, m⟩⟩
    | .reply content parsed =>
      if content = "" then ⟨1, .error noContentErr⟩
      else
        match parsed with
        | .error _ => ⟨1, .error topicParseErr⟩
        | .ok j =>
          match processParsedStandards grade subject j with
          | .ok stds => ⟨1, .ok stds⟩
          | .error e => ⟨1, .error ⟨none, e.msg⟩⟩

/-! ## `generateTutorResponse` (part_005 lines 270-371) -/

/-- JS `parseInt(s)` (radix 10): skip leading whitespace, optional sign, then
the longest digit run; no digits means `NaN`, modelled as `none`.  (The
hexadecimal auto-radix of `parseInt` is irrelevant to grade-level strings.) -/
def jsParseInt (s : String) : Option Int :=
  let cs := s.toList.dropWhile Char.isWhitespace
  let signAndRest : Int × List Char :=
    match cs with
    | '-' :: rest => (-1, rest)
    | '+' :: rest => (1, rest)
    | rest => (1, rest)
  let ds := signAndRest.2.takeWhile Char.isDigit
  if ds.isEmpty then none
  else some (signAndRest.1 * (ds.foldl (fun acc c => acc * 10 + (c.toNat - 48)) 0 : Nat))

/-- `parseInt(courseContext.gradeLevel) || 1` (part_005 line 280): `NaN` and
`0` are falsy and default to `1`. -/
def jsParseIntOr1 (s : String) : Int :=
  match jsParseInt s with
  | none => 1
  | some 0 => 1
  | some n => n

/-- `Math.min(8 + gradeNumber * 2, 20)` (part_005 line 281). -/
def maxSentenceLengthOf (g : Int) : Int := min (8 + g * 2) 20

/-- `Math.min(4 + Math.floor(gradeNumber / 2), 8)` (part_005 line 282).
`Math.floor(g / 2)` on an integer `g` is floor division, which is Lean's `Int`
division by the positive `2`. -/
def maxWordLengthOf (g : Int) : Int := min (4 + g / 2) 8

/-- The three grade-specific prompt tiers of part_005 lines 304-319. -/
inductive GradeTier where
  | lower
  | middle
  | upper
deriving DecidableEq, Repr

/-- Tier selection (part_005 line 304 and 309): `gradeNumber <= 3 ? ... :
gradeNumber <= 6 ? ... : ...`. -/
def tierOf (g : Int) : GradeTier :=
  if g ≤ 3 then .lower else if g ≤ 6 then .middle else .upper

/-- `CourseContext` (part_005 lines 429-438).  Only the fields the modelled
computation reads are kept structured; `standard` affects only prompt text. -/
structure CourseContext where
  name : String
  subject : String
  gradeLevel : String
  currentTopic : String
  standard : Option (String × String)

/-- The grade-derived parameters of the system prompt built at part_005 lines
280-319 (the remainder of the prompt is fixed text plus verbatim context and
material interpolation). -/
structure PromptSpec where
  gradeNumber : Int
  maxSentenceLength : Int
  maxWordLength : Int
  tier : GradeTier
deriving DecidableEq, Repr

/-- Prompt construction for a course context (part_005 lines 280-319). -/
def tutorPromptSpec (ctx : CourseContext) : PromptSpec :=
  let g := jsParseIntOr1 ctx.gradeLevel
  { gradeNumber := g
    maxSentenceLength := maxSentenceLengthOf g
    maxWordLength := maxWordLengthOf g
    tier := tierOf g }

/-- The three fixed fallback suggestions of part_005 line 364. -/
def fallbackSuggestions : List String :=
  ["Can you tell me more?", "Would you like another example?",
   "What else should we practice?"]

/-- The fallback reply object of part_005 lines 362-365. -/
def fallbackReply (content : String) : JsVal :=
  JsVal.obj [("message", JsVal.str content),
             ("suggestions", JsVal.arr (fallbackSuggestions.map JsVal.str))]

/-- Error the outer catch of part_005 lines 367-370 converts every thrown
error into. -/
def tutorFailErr : JsError := ⟨none, "Failed to generate tutor response"⟩

/-- Observable trace of one `generateTutorResponse` invocation: provider-call
count, the prompt parameters sent (when a call was made), and the returned
value or raised error.  The success path returns `JSON.parse(content) as
ChatResponse` — an unvalidated cast — so the returned value is a raw
`JsVal`. -/
structure ChatTrace where
  calls : Nat
  promptSpec : Option PromptSpec
  result : Except JsError JsVal

/-- `generateTutorResponse` (part_005 lines 270-371): fail-fast API-key check
(lines 275-277), prompt construction, one provider call (no retry), content
check (line 353), then `JSON.parse(content)` returned as-is on success (line
358) and the fallback object on parse failure (lines 359-366).  Any thrown
error is replaced by `tutorFailErr` in the outer catch. -/
def generateTutorResponse (apiKeyPresent : Bool) (ctx : CourseContext)
    (outcome : ProviderOutcome) : ChatTrace :=
  if !apiKeyPresent then ⟨0, none, .error apiKeyMissingErr⟩
  else
    let ps := tutorPromptSpec ctx
    match outcome with
    | .apiFail _ _ => ⟨1, some ps, .error tutorFailErr⟩
    | .reply content parsed =>
      if content = "" then ⟨1, some ps, .error tutorFailErr⟩
      else
        match parsed with
        | .ok j => ⟨1, some ps, .ok j⟩
        | .error _ => ⟨1, some ps, .ok (fallbackReply content)⟩

/-! ## Concrete inputs used in counterexamples and witnesses -/

/-- A syntactically well-formed lesson object with the given day and title. -/
def lessonJs (i : Int) (t : String) : JsVal :=
  JsVal.obj [("day", JsVal.num i), ("title", JsVal.str t), ("standard", JsVal.null)]

/-- A lesson object missing its `title` field. -/
def missingTitleJs : JsVal :=
  JsVal.obj [("day", JsVal.num 3), ("standard", JsVal.null)]

/-- A `lessons` array of six elements: five valid lessons and one invalid
element missing its title. -/
def sixElemLessons : List JsVal :=
  [lessonJs 1 "Intro", lessonJs 2 "Count", missingTitleJs,
   lessonJs 3 "Add", lessonJs 4 "Subtract", lessonJs 5 "Review"]

/-- The five cleaned lessons the gateway extracts from `sixElemLessons`. -/
def fiveLessons : List Lesson :=
  [⟨1, "Intro", none⟩, ⟨2, "Count", none⟩, ⟨3, "Add", none⟩,
   ⟨4, "Subtract", none⟩, ⟨5, "Review", none⟩]

/-- The course context of the kindergarten chat scenario. -/
def ctxK : CourseContext :=
  ⟨"Counting with Numbers", "Mathematics", "K", "Counting", none⟩

/-- A 150-character title (no surrounding whitespace). -/
def longTitle : String := String.mk (List.replicate 150 'a')

/-- A structurally valid lesson whose title has 150 characters. -/
def longTitleLesson : JsVal :=
  JsVal.obj [("day", JsVal.num 7), ("title", JsVal.str longTitle),
             ("standard", JsVal.str "CC.3.NBT.1")]

/-- Two valid standard candidates: one with a truthy id, one whose id is the
empty string (falsy, so it is replaced by null). -/
def stdCandidates : List JsVal :=
  [JsVal.obj [("id", JsVal.str "CC.3.NBT.1"),
              ("description", JsVal.str "Round numbers")],
   JsVal.obj [("id", JsVal.str ""), ("description", JsVal.str "Compare")]]

/-- The standard produced from the first candidate of `stdCandidates`. -/
def stdOut1 : StandardOut := ⟨JsVal.str "CC.3.NBT.1", "Round numbers", "3", "Math", 1⟩

/-- The standard produced from the second candidate of `stdCandidates`: its
empty-string id is falsy and becomes null. -/
def stdOut2 : StandardOut := ⟨JsVal.null, "Compare", "3", "Math", 1⟩

/-! ## Helper lemmas -/

theorem stringMk_length (l : List Char) : (String.mk l).length = l.length := rfl

theorem stringMk_eq_empty_iff (l : List Char) : String.mk l = "" ↔ l = [] := by
  constructor
  · intro h
    have h' := congrArg String.data h
    simpa using h'
  · intro h
    subst h
    rfl

theorem analyzePDFContent_true (provider : Nat → ProviderOutcome) :
    analyzePDFContent true provider = analyzeRetryLoop provider 0 3 none [] := rfl

theorem analyzeRetryLoop_succ_ok (provider : Nat → ProviderOutcome)
    (idx r : Nat) (le : Option JsError) (ds : List Nat) (ls : List Lesson)
    (h : attemptOf (provider idx) = .ok ls) :
    analyzeRetryLoop provider idx (r + 1) le ds = ⟨idx + 1, ds, .ok ls⟩ := by
  unfold analyzeRetryLoop
  rw [h]

theorem analyzeRetryLoop_succ_noretry (provider : Nat → ProviderOutcome)
    (idx r : Nat) (le : Option JsError) (ds : List Nat) (e : JsError)
    (h : attemptOf (provider idx) = .error e)
    (hr : isRetryableStatus e.status = false) :
    analyzeRetryLoop provider idx (r + 1) le ds = ⟨idx + 1, ds, .error e⟩ := by
  unfold analyzeRetryLoop
  rw [h]
  simp [hr]

theorem analyzeRetryLoop_succ_retry (provider : Nat → ProviderOutcome)
    (idx r : Nat) (le : Option JsError) (ds : List Nat) (e : JsError)
    (h : attemptOf (provider idx) = .error e)
    (hr : isRetryableStatus e.status = true) (hn : 0 < r) :
    analyzeRetryLoop provider idx (r + 1) le ds
      = analyzeRetryLoop provider (idx + 1) r (some e)
          (ds ++ [baseDelay * (3 - r)]) := by
  conv_lhs => unfold analyzeRetryLoop
  rw [h]
  simp [hr, hn]

theorem analyzeRetryLoop_succ_exhaust (provider : Nat → ProviderOutcome)
    (idx : Nat) (le : Option JsError) (ds : List Nat) (e : JsError)
    (h : attemptOf (provider idx) = .error e)
    (hr : isRetryableStatus e.status = true) :
    analyzeRetryLoop provider idx 1 le ds
      = ⟨idx + 1, ds, .error (exhaustedErr (some e))⟩ := by
  unfold analyzeRetryLoop
  rw [h]
  simp [hr]

theorem analyzeRetryLoop_calls_le (provider : Nat → ProviderOutcome) :
    ∀ (r idx : Nat) (le : Option JsError) (ds : List Nat),
      (analyzeRetryLoop provider idx r le ds).calls ≤ idx + r := by
  intro r
  induction r with
  | zero =>
    intro idx le ds
    simp [analyzeRetryLoop]
  | succ n ih =>
    intro idx le ds
    cases h : attemptOf (provider idx) with
    | ok ls =>
      rw [analyzeRetryLoop_succ_ok provider idx n le ds ls h]
      dsimp only
      omega
    | error e =>
      by_cases hr : isRetryableStatus e.status = true
      · by_cases hn : 0 < n
        · rw [analyzeRetryLoop_succ_retry provider idx n le ds e h hr hn]
          have := ih (idx + 1) (some e) (ds ++ [baseDelay * (3 - n)])
          omega
        · have hn0 : n = 0 := by omega
          subst hn0
          rw [analyzeRetryLoop_succ_exhaust provider idx le ds e h hr]
      · rw [analyzeRetryLoop_succ_noretry provider idx n le ds e h
              (by simpa using hr)]
        dsimp only
        omega

theorem analyzeRetryLoop_calls_ge (provider : Nat → ProviderOutcome) :
    ∀ (r idx : Nat) (le : Option JsError) (ds : List Nat), 0 < r →
      idx + 1 ≤ (analyzeRetryLoop provider idx r le ds).calls := by
  intro r
  induction r with
  | zero => intro idx le ds h; omega
  | succ n ih =>
    intro idx le ds _
    cases h : attemptOf (provider idx) with
    | ok ls =>
      rw [analyzeRetryLoop_succ_ok provider idx n le ds ls h]
    | error e =>
      by_cases hr : isRetryableStatus e.status = true
      · by_cases hn : 0 < n
        · rw [analyzeRetryLoop_succ_retry provider idx n le ds e h hr hn]
          have := ih (idx + 1) (some e) (ds ++ [baseDelay * (3 - n)]) hn
          omega
        · have hn0 : n = 0 := by omega
          subst hn0
          rw [analyzeRetryLoop_succ_exhaust provider idx le ds e h hr]
      · rw [analyzeRetryLoop_succ_noretry provider idx n le ds e h
              (by simpa using hr)]

theorem processParsedLessons_ok_ne_nil (j : JsVal) (ls : List Lesson)
    (h : processParsedLessons j = .ok ls) : ls ≠ [] := by
  unfold processParsedLessons at h
  split at h
  · dsimp only at h
    split at h
    · cases h
    · next hne =>
      cases h
      simpa [List.isEmpty_iff] using hne
  · cases h

theorem attemptOf_ok_ne_nil (o : ProviderOutcome) (ls : List Lesson)
    (h : attemptOf o = .ok ls) : ls ≠ [] := by
  cases o with
  | apiFail st m => cases h
  | reply content parsed =>
    simp only [attemptOf] at h
    by_cases hc : content = ""
    · rw [if_pos hc] at h
      cases h
    · rw [if_neg hc] at h
      cases parsed with
      | error m => cases h
      | ok j => exact processParsedLessons_ok_ne_nil j ls h

theorem analyzeRetryLoop_ok_ne_nil (provider : Nat → ProviderOutcome) :
    ∀ (r idx : Nat) (le : Option JsError) (ds : List Nat) (ls : List Lesson),
      (analyzeRetryLoop provider idx r le ds).result = .ok ls → ls ≠ [] := by
  intro r
  induction r with
  | zero =>
    intro idx le ds ls h
    simp [analyzeRetryLoop] at h
  | succ n ih =>
    intro idx le ds ls h
    cases ha : attemptOf (provider idx) with
    | ok ls' =>
      rw [analyzeRetryLoop_succ_ok provider idx n le ds ls' ha] at h
      simp at h
      subst h
      exact attemptOf_ok_ne_nil _ _ ha
    | error e =>
      by_cases hr : isRetryableStatus e.status = true
      · by_cases hn : 0 < n
        · rw [analyzeRetryLoop_succ_retry provider idx n le ds e ha hr hn] at h
          exact ih (idx + 1) (some e) _ ls h
        · have hn0 : n = 0 := by omega
          subst hn0
          rw [analyzeRetryLoop_succ_exhaust provider idx le ds e ha hr] at h
          simp at h
      · rw [analyzeRetryLoop_succ_noretry provider idx n le ds e ha
              (by simpa using hr)] at h
        simp at h

theorem processParsedLessons_filter (xs : List JsVal)
    (hne : xs.filter isValidLesson ≠ []) :
    processParsedLessons (JsVal.obj [("lessons", JsVal.arr xs)])
      = .ok ((xs.filter isValidLesson).map cleanLesson) := by
  unfold processParsedLessons
  have hget : jsGet (JsVal.obj [("lessons", JsVal.arr xs)]) "lessons"
      = some (JsVal.arr xs) := rfl
  rw [hget]
  have hmap : ((xs.filter isValidLesson).map cleanLesson).isEmpty = false := by
    simp [List.isEmpty_iff, hne]
  simp [hmap]

theorem processParsedLessons_filter_nil (xs : List JsVal)
    (hnil : xs.filter isValidLesson = []) :
    processParsedLessons (JsVal.obj [("lessons", JsVal.arr xs)])
      = .error noValidLessonsErr := by
  unfold processParsedLessons
  have hget : jsGet (JsVal.obj [("lessons", JsVal.arr xs)]) "lessons"
      = some (JsVal.arr xs) := rfl
  rw [hget]
  simp [hnil]

theorem attemptOf_reply_ok (content : String) (j : JsVal) (h : content ≠ "") :
    attemptOf (.reply content (.ok j)) = processParsedLessons j := by
  simp only [attemptOf]
  rw [if_neg h]

theorem take100_ne_nil {l : List Char} (h : l ≠ []) : l.take 100 ≠ [] := by
  cases l with
  | nil => exact absurd rfl h
  | cons a l' => simp

theorem analyzePDFContent_filter_ok (xs : List JsVal) (content : String)
    (hc : content ≠ "") (hne : xs.filter isValidLesson ≠ []) :
    analyzePDFContent true
        (fun _ => .reply content (.ok (JsVal.obj [("lessons", JsVal.arr xs)])))
      = ⟨1, [], .ok ((xs.filter isValidLesson).map cleanLesson)⟩ := by
  rw [analyzePDFContent_true]
  have hatt : attemptOf
      ((fun _ => ProviderOutcome.reply content
          (.ok (JsVal.obj [("lessons", JsVal.arr xs)]))) 0)
      = .ok ((xs.filter isValidLesson).map cleanLesson) := by
    rw [attemptOf_reply_ok _ _ hc, processParsedLessons_filter xs hne]
  exact analyzeRetryLoop_succ_ok _ 0 2 none [] _ hatt

theorem analyzeTopic_reply_ok (grade subject content : String) (j : JsVal)
    (h : content ≠ "") :
    analyzeTopic true grade subject (.reply content (.ok j))
      = match processParsedStandards grade subject j with
        | .ok stds => ⟨1, .ok stds⟩
        | .error e => ⟨1, .error ⟨none, e.msg⟩⟩ := by
  have hdef : analyzeTopic true grade subject (.reply content (.ok j))
      = if content = "" then ⟨1, .error noContentErr⟩
        else match processParsedStandards grade subject j with
          | .ok stds => (⟨1, .ok stds⟩ : TopicTrace)
          | .error e => ⟨1, .error ⟨none, e.msg⟩⟩ := rfl
  rw [hdef, if_neg h]

theorem processParsedStandards_filter (grade subject : String)
    (xs : List JsVal) (hne : xs.filter isValidStandard ≠ []) :
    processParsedStandards grade subject
        (JsVal.obj [("standards", JsVal.arr xs)])
      = .ok ((xs.filter isValidStandard).map (cleanStandard grade subject)) := by
  unfold processParsedStandards
  have hget : jsGet (JsVal.obj [("standards", JsVal.arr xs)]) "standards"
      = some (JsVal.arr xs) := rfl
  rw [hget]
  have hmap : ((xs.filter isValidStandard).map
      (cleanStandard grade subject)).isEmpty = false := by
    simp [List.isEmpty_iff, hne]
  simp [hmap]

theorem processParsedStandards_filter_nil (grade subject : String)
    (xs : List JsVal) (hnil : xs.filter isValidStandard = []) :
    processParsedStandards grade subject
        (JsVal.obj [("standards", JsVal.arr xs)])
      = .error topicParseErr := by
  unfold processParsedStandards
  have hget : jsGet (JsVal.obj [("standards", JsVal.arr xs)]) "standards"
      = some (JsVal.arr xs) := rfl
  rw [hget]
  simp [hnil]

theorem processParsedStandards_ok_ne_nil (grade subject : String) (j : JsVal)
    (sts : List StandardOut)
    (h : processParsedStandards grade subject j = .ok sts) : sts ≠ [] := by
  unfold processParsedStandards at h
  split at h
  · dsimp only at h
    split at h
    · cases h
    · next hne =>
      cases h
      simpa [List.isEmpty_iff] using hne
  · cases h

theorem analyzeTopic_filter_nil (grade subject content : String)
    (xs : List JsVal) (hc : content ≠ "")
    (hnil : xs.filter isValidStandard = []) :
    analyzeTopic true grade subject
        (.reply content (.ok (JsVal.obj [("standards", JsVal.arr xs)])))
      = ⟨1, .error topicParseErr⟩ := by
  rw [analyzeTopic_reply_ok grade subject content _ hc,
      processParsedStandards_filter_nil grade subject xs hnil]
  rfl

theorem analyzeTopic_filter_some (grade subject content : String)
    (xs : List JsVal) (hc : content ≠ "")
    (hne : xs.filter isValidStandard ≠ []) :
    analyzeTopic true grade subject
        (.reply content (.ok (JsVal.obj [("standards", JsVal.arr xs)])))
      = ⟨1, .ok ((xs.filter isValidStandard).map (cleanStandard grade subject))⟩ := by
  rw [analyzeTopic_reply_ok grade subject content _ hc,
      processParsedStandards_filter grade subject xs hne]

theorem analyzeTopic_ok_ne_nil (grade subject : String)
    (outcome : ProviderOutcome) (sts : List StandardOut)
    (h : (analyzeTopic true grade subject outcome).result = .ok sts) :
    sts ≠ [] := by
  cases outcome with
  | apiFail st m => cases h
  | reply content parsed =>
    by_cases hc : content = ""
    · subst hc
      cases h
    · cases parsed with
      | error m => simp [analyzeTopic, hc] at h
      | ok j =>
        rw [analyzeTopic_reply_ok grade subject content j hc] at h
        cases hp : processParsedStandards grade subject j with
        | ok sts' =>
          rw [hp] at h
          cases h
          exact processParsedStandards_ok_ne_nil grade subject j _ hp
        | error e =>
          rw [hp] at h
          cases h

/-! ## Claim theorems -/

/-- C5: for every numeric grade g, the chat prompt's limits satisfy
maxSentenceWords(g) = min(8 + 2·g, 20) and maxWordLength(g) = min(4 + ⌊g/2⌋, 8);
both are monotonically non-decreasing in g and capped at 20 resp. 8, and the
prompt selects exactly one of three complexity tiers, at grades ≤ 3, 4-6 and
> 6. -/
theorem C5_prompt_limits :
    (∀ g : Int, maxSentenceLengthOf g = min (8 + 2 * g) 20)
    ∧ (∀ g : Int, maxWordLengthOf g = min (4 + g / 2) 8)
    ∧ (∀ g g' : Int, g ≤ g' →
        maxSentenceLengthOf g ≤ maxSentenceLengthOf g'
          ∧ maxWordLengthOf g ≤ maxWordLengthOf g')
    ∧ (∀ g : Int, maxSentenceLengthOf g ≤ 20 ∧ maxWordLengthOf g ≤ 8)
    ∧ (∀ g : Int, (g ≤ 3 → tierOf g = GradeTier.lower)
        ∧ (4 ≤ g → g ≤ 6 → tierOf g = GradeTier.middle)
        ∧ (6 < g → tierOf g = GradeTier.upper)) := by
  refine ⟨?_, ?_, ?_, ?_, ?_⟩
  · intro g
    unfold maxSentenceLengthOf
    omega
  · intro g
    rfl
  · intro g g' h
    constructor
    · unfold maxSentenceLengthOf
      omega
    · unfold maxWordLengthOf
      omega
  · intro g
    constructor
    · unfold maxSentenceLengthOf
      omega
    · unfold maxWordLengthOf
      omega
  · intro g
    refine ⟨?_, ?_, ?_⟩
    · intro h
      simp [tierOf, h]
    · intro h1 h2
      unfold tierOf
      rw [if_neg (by omega), if_pos h2]
    · intro h
      unfold tierOf
      rw [if_neg (by omega), if_neg (by omega)]

/-- C5 witness: the limit formulas, monotonicity and tier selection evaluated
at the concrete grades 2, 5 and 9. -/
theorem C5_prompt_limits_witness :
    maxSentenceLengthOf 2 ≤ maxSentenceLengthOf 9
    ∧ maxWordLengthOf 2 ≤ maxWordLengthOf 9
    ∧ tierOf 2 = GradeTier.lower ∧ tierOf 5 = GradeTier.middle
    ∧ tierOf 9 = GradeTier.upper :=
  ⟨(C5_prompt_limits.2.2.1 2 9 (by decide)).1,
   (C5_prompt_limits.2.2.1 2 9 (by decide)).2,
   (C5_prompt_limits.2.2.2.2 2).1 (by decide),
   (C5_prompt_limits.2.2.2.2 5).2.1 (by decide) (by decide),
   (C5_prompt_limits.2.2.2.2 9).2.2 (by decide)⟩

/-- C8: when the provider API key is absent from the environment, each of the
three gateway operations fails immediately with the configuration error and
makes zero provider calls. -/
theorem C8_missing_key_fail_fast (provider : Nat → ProviderOutcome)
    (grade subject : String) (topicOutcome : ProviderOutcome)
    (ctx : CourseContext) (chatOutcome : ProviderOutcome) :
    analyzePDFContent false provider = ⟨0, [], .error apiKeyMissingErr⟩
    ∧ analyzeTopic false grade subject topicOutcome = ⟨0, .error apiKeyMissingErr⟩
    ∧ generateTutorResponse false ctx chatOutcome
        = ⟨0, none, .error apiKeyMissingErr⟩ :=
  ⟨rfl, rfl, rfl⟩

/-- C1 as stated is false: when the model output is the valid JSON text
"\x7b\x7d", `generateTutorResponse` returns the parsed empty object
unchanged, and that returned value has no `message` field at all (the
success path is an unvalidated cast). -/
theorem C1_counterexample :
    (generateTutorResponse true ctxK
        (.reply "\x7b\x7d" (.ok (JsVal.obj [])))).result = .ok (JsVal.obj [])
    ∧ jsGet (JsVal.obj []) "message" = none :=
  ⟨rfl, rfl⟩

/-- C1 amended: `generateTutorResponse` never raises on model output that is
not valid JSON — parsing failure returns the raw model text as `message`
(non-empty, because empty content raises before parsing is reached) together
with the three fixed fallback suggestion strings; a parse success, however,
is returned as-is without validation, so its `message` field may be absent
or empty. -/
theorem C1_chat_fallback (ctx : CourseContext) (content emsg : String)
    (h : content ≠ "") :
    generateTutorResponse true ctx (.reply content (.error emsg))
      = ⟨1, some (tutorPromptSpec ctx), .ok (fallbackReply content)⟩
    ∧ jsGet (fallbackReply content) "message" = some (JsVal.str content)
    ∧ jsGet (fallbackReply content) "suggestions"
        = some (JsVal.arr (fallbackSuggestions.map JsVal.str))
    ∧ fallbackSuggestions.length = 3
    ∧ (∀ j : JsVal, generateTutorResponse true ctx (.reply content (.ok j))
        = ⟨1, some (tutorPromptSpec ctx), .ok j⟩) := by
  refine ⟨?_, rfl, rfl, rfl, fun j => ?_⟩
  · have hdef : generateTutorResponse true ctx (.reply content (.error emsg))
        = if content = ""
          then ⟨1, some (tutorPromptSpec ctx), .error tutorFailErr⟩
          else ⟨1, some (tutorPromptSpec ctx), .ok (fallbackReply content)⟩ := rfl
    rw [hdef, if_neg h]
  · have hdef : generateTutorResponse true ctx (.reply content (.ok j))
        = if content = ""
          then ⟨1, some (tutorPromptSpec ctx), .error tutorFailErr⟩
          else ⟨1, some (tutorPromptSpec ctx), .ok j⟩ := rfl
    rw [hdef, if_neg h]

/-- C1 witness: the amended claim evaluated on a malformed model output. -/
theorem C1_chat_fallback_witness :
    generateTutorResponse true ctxK
        (.reply "not json" (.error "Unexpected token"))
      = ⟨1, some (tutorPromptSpec ctxK), .ok (fallbackReply "not json")⟩ :=
  (C1_chat_fallback ctxK "not json" "Unexpected token" (by decide)).1

/-- C10 as stated is false: with gradeLevel "K" the gateway does select the
lowest tier with maxSentenceLength 10 and maxWordLength 4, but it does not
always return three suggestion strings: a parse-success reply is passed
through unvalidated, and here the model's JSON carries no suggestions at
all. -/
theorem C10_counterexample :
    generateTutorResponse true ctxK
        (.reply "\x7b\"message\":\"2 and 2 make 4\"\x7d"
          (.ok (JsVal.obj [("message", JsVal.str "2 and 2 make 4")])))
      = ⟨1, some ⟨1, 10, 4, GradeTier.lower⟩,
          .ok (JsVal.obj [("message", JsVal.str "2 and 2 make 4")])⟩
    ∧ jsGet (JsVal.obj [("message", JsVal.str "2 and 2 make 4")])
        "suggestions" = none :=
  ⟨rfl, rfl⟩

/-- C10 amended: gradeLevel "K" does not parse as a nonzero integer and is
treated as grade 1, so the prompt selects the lowest complexity tier
(grades ≤ 3) with maxSentenceLength 10 and maxWordLength 4; the reply
contains exactly three suggestion strings whenever the model output fails
JSON parsing (the fallback path), while a parse-success reply passes the
model's value through unvalidated. -/
theorem C10_kindergarten (content emsg : String) (h : content ≠ "") :
    jsParseIntOr1 "K" = 1
    ∧ tutorPromptSpec ctxK = ⟨1, 10, 4, GradeTier.lower⟩
    ∧ generateTutorResponse true ctxK (.reply content (.error emsg))
        = ⟨1, some ⟨1, 10, 4, GradeTier.lower⟩, .ok (fallbackReply content)⟩
    ∧ (match jsGet (fallbackReply content) "suggestions" with
        | some (JsVal.arr l) => l.length
        | _ => 0) = 3 := by
  refine ⟨rfl, rfl, ?_, rfl⟩
  have hdef : generateTutorResponse true ctxK (.reply content (.error emsg))
      = if content = ""
        then ⟨1, some (tutorPromptSpec ctxK), .error tutorFailErr⟩
        else ⟨1, some (tutorPromptSpec ctxK), .ok (fallbackReply content)⟩ := rfl
  rw [hdef, if_neg h]
  rfl

/-- C10 witness: the amended claim evaluated on the kindergarten scenario
with a malformed model output. -/
theorem C10_kindergarten_witness :
    generateTutorResponse true ctxK (.reply "4" (.error "Unexpected token"))
      = ⟨1, some ⟨1, 10, 4, GradeTier.lower⟩, .ok (fallbackReply "4")⟩ :=
  (C10_kindergarten "4" "Unexpected token" (by decide)).2.2.1
example :
    analyzePDFContent true
      (fun _ => ProviderOutcome.apiFail (some 429) "rate limited")
      = ⟨3, [3000, 6000],
          .error ⟨none, "Failed to process pacing guide: rate limited"⟩⟩ := rfl
example :
    analyzePDFContent true
      (fun _ => ProviderOutcome.reply "x"
        (.ok (JsVal.obj [("lessons",
          JsVal.arr [JsVal.obj [("day", JsVal.num 1), ("title", JsVal.str " Intro "),
            ("standard", JsVal.null)]])])))
      = ⟨1, [], .ok [⟨1, "Intro", none⟩]⟩ := rfl

/-- C3 as stated is false: for a lessons array containing five structurally
valid lesson objects and one invalid element (missing its title), the call
returns the five valid lessons — not four; only the invalid element is
dropped. -/
theorem C3_counterexample :
    analyzePDFContent true
        (fun _ => .reply "lessons json"
          (.ok (JsVal.obj [("lessons", JsVal.arr sixElemLessons)])))
      = ⟨1, [], .ok fiveLessons⟩
    ∧ fiveLessons.length ≠ 4 :=
  ⟨rfl, by decide⟩

/-- C3 amended: for every provider response whose lessons array contains five
structurally valid lesson objects and one invalid one (missing title), the
call returns exactly 5 lessons — the valid ones, cleaned, preserving their
relative order. -/
theorem C3_five_valid_one_invalid (xs : List JsVal) (content : String)
    (hc : content ≠ "")
    (h5 : (xs.filter isValidLesson).length = 5)
    (_hbad : ∃ w ∈ xs, isValidLesson w = false ∧ jsGet w "title" = none) :
    analyzePDFContent true
        (fun _ => .reply content (.ok (JsVal.obj [("lessons", JsVal.arr xs)])))
      = ⟨1, [], .ok ((xs.filter isValidLesson).map cleanLesson)⟩
    ∧ ((xs.filter isValidLesson).map cleanLesson).length = 5 := by
  have hne : xs.filter isValidLesson ≠ [] := by
    intro hnil
    rw [hnil] at h5
    cases h5
  exact ⟨analyzePDFContent_filter_ok xs content hc hne, by simp [h5]⟩

/-- C3 witness: the amended claim evaluated on the concrete six-element
array. -/
theorem C3_five_valid_one_invalid_witness :
    analyzePDFContent true
        (fun _ => .reply "lessons json"
          (.ok (JsVal.obj [("lessons", JsVal.arr sixElemLessons)])))
      = ⟨1, [], .ok ((sixElemLessons.filter isValidLesson).map cleanLesson)⟩ :=
  (C3_five_valid_one_invalid sixElemLessons "lessons json" (by decide) (by rfl)
    ⟨missingTitleJs,
     by
       show missingTitleJs ∈ sixElemLessons
       unfold sixElemLessons
       exact List.mem_cons_of_mem _ (List.mem_cons_of_mem _
         (List.mem_cons_self _ _)),
     rfl, rfl⟩).1

/-- C4: whenever zero valid lessons remain after the structural filtering of
the model's lessons array, `analyzePDFContent` raises the extraction error
("No valid lessons found", surfaced through the parse-failure rewrap); no
run of `analyzePDFContent` ever returns a result with an empty lessons
list. -/
theorem C4_no_empty_lessons :
    (∀ (apiKey : Bool) (provider : Nat → ProviderOutcome) (ls : List Lesson),
        (analyzePDFContent apiKey provider).result = .ok ls → ls ≠ [])
    ∧ (∀ (xs : List JsVal) (content : String), content ≠ "" →
        xs.filter isValidLesson = [] →
        analyzePDFContent true
            (fun _ => .reply content
              (.ok (JsVal.obj [("lessons", JsVal.arr xs)])))
          = ⟨1, [], .error noValidLessonsErr⟩) := by
  constructor
  · intro apiKey provider ls h
    cases apiKey with
    | false => cases h
    | true =>
      rw [analyzePDFContent_true] at h
      exact analyzeRetryLoop_ok_ne_nil provider 3 0 none [] ls h
  · intro xs content hc hnil
    rw [analyzePDFContent_true]
    have hatt : attemptOf
        ((fun _ => ProviderOutcome.reply content
            (.ok (JsVal.obj [("lessons", JsVal.arr xs)]))) 0)
        = .error noValidLessonsErr := by
      rw [attemptOf_reply_ok _ _ hc, processParsedLessons_filter_nil xs hnil]
    exact analyzeRetryLoop_succ_noretry _ 0 2 none [] _ hatt rfl

/-- C4 witness: a response whose only lesson candidate is invalid (blank
title) raises the extraction error rather than returning an empty list. -/
theorem C4_no_empty_lessons_witness :
    analyzePDFContent true
        (fun _ => .reply "lessons json"
          (.ok (JsVal.obj [("lessons",
            JsVal.arr [JsVal.obj [("day", JsVal.num 1),
              ("title", JsVal.str " "), ("standard", JsVal.null)]])])))
      = ⟨1, [], .error noValidLessonsErr⟩ :=
  C4_no_empty_lessons.2 _ "lessons json" (by decide) (by rfl)

/-- C6: every lesson returned by `analyzePDFContent` has a numeric day
(carried over from the model value), a non-empty title of at most 100
characters — a title whose 150 characters survive trimming is truncated to
exactly 100 — and a standard that is null or a string (carried over);
elements failing any check are dropped without failing the call. -/
theorem C6_lesson_validation :
    (∀ l : JsVal, isValidLesson l = true →
        (cleanLesson l).title ≠ ""
        ∧ (cleanLesson l).title.length ≤ 100
        ∧ (∀ n : Int, jsGet l "day" = some (JsVal.num n) →
            (cleanLesson l).day = n)
        ∧ (jsGet l "standard" = some JsVal.null →
            (cleanLesson l).standard = none)
        ∧ (∀ s : String, jsGet l "standard" = some (JsVal.str s) →
            (cleanLesson l).standard = some s))
    ∧ (∀ (l : JsVal) (t : String), jsGet l "title" = some (JsVal.str t) →
        jsTrim t = t → t.length = 150 → (cleanLesson l).title.length = 100)
    ∧ (∀ (xs : List JsVal) (content : String), content ≠ "" →
        xs.filter isValidLesson ≠ [] →
        analyzePDFContent true
            (fun _ => .reply content
              (.ok (JsVal.obj [("lessons", JsVal.arr xs)])))
          = ⟨1, [], .ok ((xs.filter isValidLesson).map cleanLesson)⟩) := by
  refine ⟨?_, ?_, ?_⟩
  · intro l hv
    unfold isValidLesson at hv
    simp only [Bool.and_eq_true] at hv
    obtain ⟨⟨⟨htr, hday⟩, htitle⟩, hstd⟩ := hv
    cases ht : jsGet l "title" with
    | none => rw [ht] at htitle; cases htitle
    | some v =>
      rw [ht] at htitle
      cases v with
      | str t =>
        have htne : jsTrim t ≠ "" := by simpa using htitle
        have hnil : trimChars t.toList ≠ [] := by
          intro hn
          apply htne
          show String.mk (trimChars t.toList) = ""
          rw [hn]
        refine ⟨?_, ?_, ?_, ?_, ?_⟩
        · unfold cleanLesson
          rw [ht]
          dsimp only
          rw [Ne, stringMk_eq_empty_iff]
          exact take100_ne_nil hnil
        · unfold cleanLesson
          rw [ht]
          dsimp only
          rw [stringMk_length, List.length_take]
          omega
        · intro n hd
          unfold cleanLesson
          rw [hd]
        · intro hs
          unfold cleanLesson
          rw [hs]
        · intro s hs
          unfold cleanLesson
          rw [hs]
      | null => cases htitle
      | bool b => cases htitle
      | num n => cases htitle
      | arr elems => cases htitle
      | obj fields => cases htitle
  · intro l t ht htrim hlen
    unfold cleanLesson
    rw [ht]
    dsimp only
    have hchars : trimChars t.toList = t.data := by
      have h1 := congrArg String.data htrim
      simpa [jsTrim] using h1
    have h150 : t.data.length = 150 := hlen
    rw [stringMk_length, hchars, List.length_take, h150]
    omega
  · intro xs content hc hne
    exact analyzePDFContent_filter_ok xs content hc hne

/-- C6 witness: a valid lesson whose 150-character title is truncated to a
non-empty title of exactly 100 characters. -/
theorem C6_lesson_validation_witness :
    isValidLesson longTitleLesson = true
    ∧ (cleanLesson longTitleLesson).title.length = 100
    ∧ (cleanLesson longTitleLesson).title ≠ "" :=
  ⟨rfl,
   C6_lesson_validation.2.1 longTitleLesson longTitle rfl rfl rfl,
   (C6_lesson_validation.1 longTitleLesson rfl).1⟩

/-- C7: `analyzeTopic` drops every candidate whose description is absent, not
a string, or blank after trimming; when no candidates remain after the
filtering it raises (surfaced as the topic path's parse-failure error)
rather than returning an empty standards list — in particular a provider
response whose only candidate has a blank description raises; candidates
that survive the filter are returned (invalid ones are dropped, not
fatal). -/
theorem C7_description_filter :
    (∀ c : JsVal, isValidStandard c = true ↔
        ∃ d : String, jsGet c "description" = some (JsVal.str d) ∧ jsTrim d ≠ "")
    ∧ (∀ (grade subject : String) (outcome : ProviderOutcome)
        (sts : List StandardOut),
        (analyzeTopic true grade subject outcome).result = .ok sts → sts ≠ [])
    ∧ (∀ (grade subject content : String) (xs : List JsVal), content ≠ "" →
        xs.filter isValidStandard = [] →
        analyzeTopic true grade subject
            (.reply content (.ok (JsVal.obj [("standards", JsVal.arr xs)])))
          = ⟨1, .error topicParseErr⟩)
    ∧ (∀ (grade subject content : String) (xs : List JsVal), content ≠ "" →
        xs.filter isValidStandard ≠ [] →
        analyzeTopic true grade subject
            (.reply content (.ok (JsVal.obj [("standards", JsVal.arr xs)])))
          = ⟨1, .ok ((xs.filter isValidStandard).map
              (cleanStandard grade subject))⟩)
    ∧ (∀ grade subject content : String, content ≠ "" →
        analyzeTopic true grade subject
            (.reply content (.ok (JsVal.obj [("standards",
              JsVal.arr [JsVal.obj [("description", JsVal.str "")]])])))
          = ⟨1, .error topicParseErr⟩) := by
  refine ⟨?_, ?_, ?_, ?_, ?_⟩
  · intro c
    constructor
    · intro h
      unfold isValidStandard at h
      simp only [Bool.and_eq_true] at h
      obtain ⟨htr, hd⟩ := h
      cases hg : jsGet c "description" with
      | none => rw [hg] at hd; cases hd
      | some v =>
        rw [hg] at hd
        cases v with
        | str d => exact ⟨d, rfl, by simpa using hd⟩
        | null => cases hd
        | bool b => cases hd
        | num n => cases hd
        | arr elems => cases hd
        | obj fields => cases hd
    · rintro ⟨d, hd, hne⟩
      have hc : truthy c = true := by
        cases c
        case obj fields => rfl
        all_goals exact absurd hd (by simp [jsGet])
      unfold isValidStandard
      rw [hd, hc]
      simpa using hne
  · intro grade subject outcome sts h
    exact analyzeTopic_ok_ne_nil grade subject outcome sts h
  · intro grade subject content xs hc hnil
    exact analyzeTopic_filter_nil grade subject content xs hc hnil
  · intro grade subject content xs hc hne
    exact analyzeTopic_filter_some grade subject content xs hc hne
  · intro grade subject content hc
    exact analyzeTopic_filter_nil grade subject content _ hc rfl

/-- C7 witness: the blank-description response raises, and a mixed response
keeps only the candidate with a non-blank description. -/
theorem C7_description_filter_witness :
    analyzeTopic true "3" "Math"
        (.reply "standards json"
          (.ok (JsVal.obj [("standards",
            JsVal.arr [JsVal.obj [("description", JsVal.str "")]])])))
      = ⟨1, .error topicParseErr⟩ :=
  C7_description_filter.2.2.2.2 "3" "Math" "standards json" (by decide)

/-- C9: every standard returned by `analyzeTopic` has confidence exactly 1,
and grade and subject equal to the caller-supplied arguments regardless of
what the model returned; its id is either the model's truthy id value or
null. -/
theorem C9_standard_fields (grade subject content : String) (xs : List JsVal)
    (sts : List StandardOut) (hc : content ≠ "")
    (h : (analyzeTopic true grade subject
        (.reply content (.ok (JsVal.obj [("standards", JsVal.arr xs)])))).result
        = .ok sts) :
    ∀ std ∈ sts, std.confidence = 1 ∧ std.grade = grade ∧ std.subject = subject
      ∧ (std.id = JsVal.null
         ∨ ∃ c ∈ xs, truthy std.id = true ∧ jsGet c "id" = some std.id) := by
  by_cases hnil : xs.filter isValidStandard = []
  · rw [analyzeTopic_filter_nil grade subject content xs hc hnil] at h
    cases h
  · rw [analyzeTopic_filter_some grade subject content xs hc hnil] at h
    have hsts : sts = (xs.filter isValidStandard).map (cleanStandard grade subject) := by
      cases h
      rfl
    subst hsts
    intro std hstd
    obtain ⟨c, hcmem, hclean⟩ := List.mem_map.mp hstd
    have hcxs : c ∈ xs := (List.mem_filter.mp hcmem).1
    subst hclean
    refine ⟨rfl, rfl, rfl, ?_⟩
    cases hid : jsGet c "id" with
    | none =>
      left
      simp [cleanStandard, hid]
    | some v =>
      by_cases hv : truthy v = true
      · right
        refine ⟨c, hcxs, ?_, ?_⟩
        · simp [cleanStandard, hid, hv]
        · simp [cleanStandard, hid, hv]
      · left
        simp [cleanStandard, hid, hv]

/-- C9 witness: evaluated on a response with one truthy string id and one
falsy (empty-string) id — the latter is returned as null. -/
theorem C9_standard_fields_witness :
    (stdOut1.confidence = 1 ∧ stdOut1.grade = "3" ∧ stdOut1.subject = "Math"
      ∧ (stdOut1.id = JsVal.null
         ∨ ∃ c ∈ stdCandidates, truthy stdOut1.id = true
             ∧ jsGet c "id" = some stdOut1.id))
    ∧ (stdOut2.confidence = 1 ∧ stdOut2.grade = "3" ∧ stdOut2.subject = "Math"
      ∧ (stdOut2.id = JsVal.null
         ∨ ∃ c ∈ stdCandidates, truthy stdOut2.id = true
             ∧ jsGet c "id" = some stdOut2.id)) :=
  ⟨C9_standard_fields "3" "Math" "standards json" stdCandidates [stdOut1, stdOut2]
      (by decide) rfl stdOut1 (List.mem_cons_self _ _),
   C9_standard_fields "3" "Math" "standards json" stdCandidates [stdOut1, stdOut2]
      (by decide) rfl stdOut2
      (List.mem_cons_of_mem _ (List.mem_cons_self _ _))⟩

/-- C2: on `analyzePDFContent`, a provider error is retried iff its HTTP
status is 429 or at least 500; at most 3 provider calls are made in total;
the sleep before the k-th retry is baseDelay × k (3000 ms then 6000 ms);
three consecutive retryable failures give a terminal error after exactly 3
calls; a 429 followed by a success returns the successful result after
exactly 2 calls; any other error propagates after a single call with no
retry. -/
theorem C2_retry_policy :
    (∀ st : Option Nat, isRetryableStatus st = true ↔
        (st = some 429 ∨ ∃ s, st = some s ∧ 500 ≤ s))
    ∧ (∀ provider : Nat → ProviderOutcome,
        (analyzePDFContent true provider).calls ≤ 3)
    ∧ (∀ (provider : Nat → ProviderOutcome) (e : JsError),
        attemptOf (provider 0) = .error e → isRetryableStatus e.status = false →
        analyzePDFContent true provider = ⟨1, [], .error e⟩)
    ∧ (∀ (provider : Nat → ProviderOutcome) (e : JsError),
        attemptOf (provider 0) = .error e → isRetryableStatus e.status = true →
        2 ≤ (analyzePDFContent true provider).calls)
    ∧ (∀ (provider : Nat → ProviderOutcome) (e : JsError) (ls : List Lesson),
        attemptOf (provider 0) = .error e → e.status = some 429 →
        attemptOf (provider 1) = .ok ls →
        analyzePDFContent true provider = ⟨2, [3000], .ok ls⟩)
    ∧ (∀ (provider : Nat → ProviderOutcome) (e₀ e₁ e₂ : JsError),
        attemptOf (provider 0) = .error e₀ → isRetryableStatus e₀.status = true →
        attemptOf (provider 1) = .error e₁ → isRetryableStatus e₁.status = true →
        attemptOf (provider 2) = .error e₂ → isRetryableStatus e₂.status = true →
        analyzePDFContent true provider
          = ⟨3, [3000, 6000], .error (exhaustedErr (some e₂))⟩) := by
  refine ⟨?_, ?_, ?_, ?_, ?_, ?_⟩
  · intro st
    cases st with
    | none => simp [isRetryableStatus]
    | some s => simp [isRetryableStatus]
  · intro provider
    rw [analyzePDFContent_true]
    have := analyzeRetryLoop_calls_le provider 3 0 none []
    omega
  · intro provider e h hr
    rw [analyzePDFContent_true]
    exact analyzeRetryLoop_succ_noretry provider 0 2 none [] e h hr
  · intro provider e h hr
    rw [analyzePDFContent_true,
        analyzeRetryLoop_succ_retry provider 0 2 none [] e h hr (by omega)]
    have := analyzeRetryLoop_calls_ge provider 2 (0 + 1) (some e)
      ([] ++ [baseDelay * (3 - 2)]) (by omega)
    omega
  · intro provider e ls h0 h429 h1
    rw [analyzePDFContent_true,
        analyzeRetryLoop_succ_retry provider 0 2 none [] e h0
          (by rw [h429]; rfl) (by omega),
        analyzeRetryLoop_succ_ok provider 1 1 (some e) _ ls h1]
    rfl
  · intro provider e₀ e₁ e₂ h0 hr0 h1 hr1 h2 hr2
    rw [analyzePDFContent_true,
        analyzeRetryLoop_succ_retry provider 0 2 none [] e₀ h0 hr0 (by omega),
        analyzeRetryLoop_succ_retry provider 1 1 (some e₀) _ e₁ h1 hr1 (by omega),
        analyzeRetryLoop_succ_exhaust provider 2 (some e₁) _ e₂ h2 hr2]
    rfl

/-- C2 witness: the retry policy evaluated on three scripted providers —
three consecutive 429s, a 429 followed by a success, and a non-retryable
404. -/
theorem C2_retry_policy_witness :
    analyzePDFContent true (fun _ => .apiFail (some 429) "rate limited")
      = ⟨3, [3000, 6000],
          .error (exhaustedErr (some ⟨some 429, "rate limited"⟩))⟩
    ∧ analyzePDFContent true
        (fun k => if k = 0 then .apiFail (some 429) "rate limited"
          else .reply "ok json"
            (.ok (JsVal.obj [("lessons", JsVal.arr [lessonJs 1 "Intro"])])))
      = ⟨2, [3000], .ok [⟨1, "Intro", none⟩]⟩
    ∧ analyzePDFContent true (fun _ => .apiFail (some 404) "not found")
      = ⟨1, [], .error ⟨some 404, "not found"⟩⟩ :=
  ⟨C2_retry_policy.2.2.2.2.2 _ ⟨some 429, "rate limited"⟩
      ⟨some 429, "rate limited"⟩ ⟨some 429, "rate limited"⟩
      rfl rfl rfl rfl rfl rfl,
   C2_retry_policy.2.2.2.2.1 _ ⟨some 429, "rate limited"⟩
      [⟨1, "Intro", none⟩] rfl rfl rfl,
   C2_retry_policy.2.2.1 _ ⟨some 404, "not found"⟩ rfl rfl⟩
